import Mathlib

/-!
Shallow embedding of the billing / webhook reconciliation core of the
posthog-cloud repository (`multi_tenancy/models.py`, `multi_tenancy/views.py`,
`multi_tenancy/stripe.py`, `multi_tenancy/serializers.py`,
`multi_tenancy/tasks.py`).

Timestamps are modelled as `Int` seconds since the epoch (`timezone.now()`
becomes an explicit `now : Int` parameter); `datetime.timedelta(days := n)`
is `n * 86400` seconds and `timedelta(minutes := n)` is `n * 60` seconds.
Optional database columns (`null=True`) are `Option Int`; `blank=True` string
columns are `String` with `""` for the blank value, matching Python
truthiness of the empty string. External provider (Stripe) behaviour is an
explicit environment argument. Diagnostic messages sent through
`capture_message` are abbreviated to short tags.
-/

namespace MultiTenancy

def secondsPerDay : Int := 86400

def secondsPerMinute : Int := 60

/-- `multi_tenancy/models.py` `Plan` (display-only columns omitted). -/
structure Plan where
  key : String
  name : String
  price_id : String
  event_allowance : Option Int
  is_active : Bool
  is_metered_billing : Bool
  self_serve : Bool
deriving Repr, DecidableEq

/-- `multi_tenancy/models.py` `OrganizationBilling`. -/
structure OrganizationBilling where
  stripe_customer_id : String
  stripe_checkout_session : String
  stripe_subscription_id : String
  stripe_subscription_item_id : String
  checkout_session_created_at : Option Int
  should_setup_billing : Bool
  billing_period_ends : Option Int
  plan : Option Plan
deriving Repr, DecidableEq

/-- `OrganizationBilling.is_billing_active` (models.py lines 100-107):
`bool(self.plan and not self.should_setup_billing and self.billing_period_ends
and self.billing_period_ends > timezone.now())`. -/
def OrganizationBilling.is_billing_active (b : OrganizationBilling) (now : Int) : Bool :=
  b.plan.isSome && !b.should_setup_billing &&
    (match b.billing_period_ends with
     | some e => decide (now < e)
     | none => false)

/-- Result of `multi_tenancy/stripe.py` `create_subscription` (the relevant
fields of the returned dict). -/
structure SubscriptionData where
  subscription_id : String
  subscription_item_id : String
deriving Repr, DecidableEq

/-- `OrganizationBilling.handle_post_card_validation` (models.py lines 156-169).
`none` models the `AttributeError` Python raises on `self.plan.key` when no
plan is set; `created` is what the provider returns for `create_subscription`. -/
def OrganizationBilling.handle_post_card_validation (b : OrganizationBilling)
    (now : Int) (created : SubscriptionData) : Option OrganizationBilling :=
  match b.plan with
  | none => none
  | some p =>
    if p.key = "startup" then
      some { b with billing_period_ends := some (now + 365 * secondsPerDay),
                    should_setup_billing := false }
    else if p.is_metered_billing then
      some { b with stripe_subscription_item_id := created.subscription_item_id,
                    stripe_subscription_id := created.subscription_id,
                    should_setup_billing := false }
    else some b

/-- Modelled from the spec: `OrganizationBilling.register_cancellation` is
invoked by the webhook view (views.py line 208) but its definition is not
among the billing sources here. Per the spec's state machine
(`Active/AwaitingSetup → Expired`, "recording the cancellation timestamp",
with expiry evaluated lazily on read via `billing_period_ends`), it records
the provided cancellation timestamp as the end of the billing period. -/
def OrganizationBilling.register_cancellation (b : OrganizationBilling)
    (ts : Int) : OrganizationBilling :=
  { b with billing_period_ends := some ts }

/-- One entry of `event["data"]["object"]["lines"]["data"]` (or
`["items"]["data"]`): the fields the webhook view reads. -/
structure LineItem where
  price_id : String
  period_end : Int
deriving Repr, DecidableEq

/-- The fields of a parsed Stripe webhook event that `stripe_webhook`
(views.py) accesses. `none` on an `Option` field models a missing key
(`KeyError`) or a JSON `null` where Python checks truthiness. -/
structure WebhookEvent where
  type : String
  customer : Option String
  subscription : Option String
  lines : List LineItem
  items : List LineItem
  cancel_at : Option Int
  canceled_at : Option Int
  payment_intent_id : String
  payment_method : String
deriving Repr, DecidableEq

/-- Python truthiness of a nullable Unix-timestamp field: `None` and `0` are
falsy. -/
def truthyTimestamp : Option Int → Bool
  | none => false
  | some t => t != 0

/-- The line items the unknown-customer check iterates over (views.py lines
137-143): invoice lines for `invoice.payment_succeeded`, subscription items
for `customer.subscription.deleted`, nothing otherwise. -/
def WebhookEvent.invoiceLines (e : WebhookEvent) : List LineItem :=
  if e.type = "invoice.payment_succeeded" then e.lines
  else if e.type = "customer.subscription.deleted" then e.items
  else []

/-- Error taxonomy of `parse_webhook` (stripe.py lines 133-138):
`ImproperlyConfigured` when the webhook secret is unset, a signature
verification failure, or an unparable payload. -/
inductive StripeParseFailure where
  | configurationError
  | signatureError
  | malformedPayload
deriving Repr, DecidableEq

/-- `parse_webhook` (stripe.py lines 133-138): raises `ImproperlyConfigured`
before any signature check when `STRIPE_WEBHOOK_SECRET` is unset, otherwise
delegates signature verification and payload parsing to
`stripe.Webhook.construct_event`. -/
def parse_webhook (secret_configured signature_valid payload_valid : Bool)
    (e : WebhookEvent) : Except StripeParseFailure WebhookEvent :=
  if !secret_configured then .error .configurationError
  else if !signature_valid then .error .signatureError
  else if !payload_valid then .error .malformedPayload
  else .ok e

/-- Environment of one `stripe_webhook` request: database lookup result for
the event's customer id, the known plan prices, and provider behaviour. -/
structure StripeEnv where
  now : Int
  known_prices : List String
  lookup : Option OrganizationBilling
  created_subscription : SubscriptionData
  cancel_intent_ok : Bool
  set_default_ok : Bool
  standard_plan : Option Plan
deriving Repr, DecidableEq

/-- Observable outcome of one `stripe_webhook` request: HTTP status and JSON
`success` flag, the database row for the event's customer after the request
(`none` when no row exists), whether a `save()` was issued, `capture_message`
diagnostics, `capture_exception` count, whether
`update_subscription_billing_period` was scheduled, whether the
cancel-payment-intent and set-default-payment-method provider calls were
attempted, and whether an uncaught exception escaped the view. -/
structure WebhookOutcome where
  status : Nat
  success : Bool
  record : Option OrganizationBilling
  saved : Bool
  messages : List String
  capturedExceptions : Nat
  scheduledBillingUpdate : Bool
  cancelAttempted : Bool
  setDefaultAttempted : Bool
  raised : Bool
deriving Repr, DecidableEq

/-- Outcome of the `except Exception` / `except KeyError` handlers and of the
unknown-customer paths: a response with no side effect on the record. -/
def plainOutcome (status : Nat) (success : Bool)
    (record : Option OrganizationBilling) (messages : List String)
    (capturedExceptions : Nat) : WebhookOutcome :=
  { status := status, success := success, record := record, saved := false,
    messages := messages, capturedExceptions := capturedExceptions,
    scheduledBillingUpdate := false, cancelAttempted := false,
    setDefaultAttempted := false, raised := false }

/-- Outcome when an exception escapes the view uncaught (only `KeyError` is
caught by the inner handler): Django turns it into a server error. -/
def raisedOutcome (record : Option OrganizationBilling) : WebhookOutcome :=
  { status := 500, success := false, record := record, saved := false,
    messages := [], capturedExceptions := 0, scheduledBillingUpdate := false,
    cancelAttempted := false, setDefaultAttempted := false, raised := true }

/-- `stripe_webhook` (views.py lines 112-220), over a parse result and the
request environment. Follows the source's dispatch on `event["type"]`. -/
def stripe_webhook (env : StripeEnv)
    (parsed : Except StripeParseFailure WebhookEvent) : WebhookOutcome :=
  match parsed with
  | .error _ =>
      -- parse_webhook raised: capture_exception(e); return error_response
      plainOutcome 400 false env.lookup [] 1
  | .ok event =>
    match event.customer with
    | none =>
        -- KeyError on event["data"]["object"]["customer"], caught below
        plainOutcome 400 false env.lookup [] 0
    | some _ =>
      match env.lookup with
      | none =>
        -- OrganizationBilling.DoesNotExist: check whether this is a Cloud
        -- customer by matching line-item prices against known plan prices
        if event.invoiceLines.any (fun l => env.known_prices.contains l.price_id) then
          plainOutcome 400 false none ["cloud_customer_not_in_database"] 0
        else
          plainOutcome 200 true none [] 0
      | some ob =>
        if event.type = "invoice.payment_succeeded" then
          match event.subscription with
          | none => plainOutcome 400 false (some ob) [] 0  -- KeyError
          | some subscription_id =>
            if ob.stripe_subscription_id = "" then
              -- First time receiving the subscription_id, record it
              { status := 200, success := true,
                record := some { ob with
                  stripe_subscription_id := subscription_id,
                  should_setup_billing := false },
                saved := true, messages := [], capturedExceptions := 0,
                scheduledBillingUpdate := true, cancelAttempted := false,
                setDefaultAttempted := false, raised := false }
            else if ob.stripe_subscription_id ≠ subscription_id then
              plainOutcome 400 false (some ob) ["subscription_mismatch"] 0
            else
              { status := 200, success := true,
                record := some { ob with should_setup_billing := false },
                saved := true, messages := [], capturedExceptions := 0,
                scheduledBillingUpdate := true, cancelAttempted := false,
                setDefaultAttempted := false, raised := false }
        else if event.type = "payment_intent.amount_capturable_updated" then
          match ob.handle_post_card_validation env.now env.created_subscription with
          | none => raisedOutcome (some ob)
          | some updated =>
              -- cancel_payment_intent and set_default_payment_method_for_customer
              -- are each wrapped in try/except StripeError: failures are captured
              { status := 200, success := true, record := some updated,
                saved := true, messages := [],
                capturedExceptions :=
                  (if env.cancel_intent_ok then 0 else 1) +
                  (if env.set_default_ok then 0 else 1),
                scheduledBillingUpdate := false, cancelAttempted := true,
                setDefaultAttempted := true, raised := false }
        else if event.type = "customer.subscription.deleted" then
          match ob.plan with
          | none => raisedOutcome (some ob)  -- AttributeError on .key
          | some p =>
            if p.key = "startup" ∧ truthyTimestamp event.cancel_at = true then
              if event.cancel_at = event.canceled_at then
                match env.standard_plan with
                | none => raisedOutcome (some ob)  -- Plan.DoesNotExist
                | some std =>
                  match OrganizationBilling.handle_post_card_validation
                      { ob with plan := some std }
                      env.now env.created_subscription with
                  | none => raisedOutcome (some ob)
                  | some updated =>
                      { status := 200, success := true, record := some updated,
                        saved := true, messages := [], capturedExceptions := 0,
                        scheduledBillingUpdate := false, cancelAttempted := false,
                        setDefaultAttempted := false, raised := false }
              else
                -- startup plan with a schedule whose timestamps differ: no branch runs
                plainOutcome 200 true (some ob) [] 0
            else
              match event.canceled_at with
              | none => raisedOutcome (some ob)  -- fromtimestamp(None)
              | some ts =>
                  { status := 200, success := true,
                    record := some (ob.register_cancellation ts),
                    saved := true, messages := [], capturedExceptions := 0,
                    scheduledBillingUpdate := false, cancelAttempted := false,
                    setDefaultAttempted := false, raised := false }
        else
          plainOutcome 200 true (some ob) [] 0

/-- One entry of a provider subscription's `items.data`, with the fields
`report_subscription_item_usage` reads (`item["id"]`,
`item["price"]["recurring"]["usage_type"]`). -/
structure SubscriptionItem where
  id : String
  usage_type : String
deriving Repr, DecidableEq

/-- The provider-side subscription object as read by
`update_subscription_billing_period` and `report_subscription_item_usage`. -/
structure ProviderSubscription where
  status : String
  current_period_end : Int
  items : List SubscriptionItem
deriving Repr, DecidableEq

/-- Result of the celery task `update_subscription_billing_period`
(tasks.py lines 111-143): `done` carries the saved record and the `initial`
flag passed to the analytics follow-up task, `retry` models
`self.retry(countdown=3600)` when the provider subscription is not active,
and `invalid` models the `ValueError` raised when no subscription id is on
file. -/
inductive BillingPeriodUpdate where
  | done (record : OrganizationBilling) (initial : Bool)
  | retry
  | invalid
deriving Repr, DecidableEq

/-- `update_subscription_billing_period` (tasks.py lines 111-143), with the
provider's subscription object passed explicitly (`get_subscription`). -/
def update_subscription_billing_period (b : OrganizationBilling)
    (sub : ProviderSubscription) : BillingPeriodUpdate :=
  let initial := b.billing_period_ends.isNone
  if b.stripe_subscription_id = "" then .invalid
  else if sub.status ≠ "active" then .retry
  else .done { b with billing_period_ends := some sub.current_period_end } initial

/-- `BillingSerializer.get_subscription_url` result (serializers.py lines
97-123): the checkout session returned to the client (the URL is
`/billing/setup?session_id=` followed by it), the database row afterwards,
whether a provider call was issued, `capture_exception` count, and whether an
uncaught exception escaped. -/
structure CheckoutResult where
  session : Option String
  record : OrganizationBilling
  providerCalled : Bool
  capturedExceptions : Nat
  raised : Bool
deriving Repr, DecidableEq

/-- Environment of one `get_subscription_url` call: the clock and what
`create_checkout_session` would return — `none` models the
`ImproperlyConfigured` exception (caught and captured in the source). -/
structure CheckoutEnv where
  now : Int
  new_session : Option (String × String)
deriving Repr, DecidableEq

/-- `BillingSerializer.get_subscription_url` (serializers.py lines 97-123).
The stored session is reused iff it exists and
`checkout_session_created_at + timedelta(minutes=1439) > timezone.now()`;
otherwise `create_checkout_session` (which dereferences `self.plan`) is
invoked and, if it yields a session, the row is updated with the new session
and a fresh `checkout_session_created_at`. -/
def get_subscription_url (b : OrganizationBilling) (env : CheckoutEnv) : CheckoutResult :=
  if b.should_setup_billing && !(b.is_billing_active env.now) then
    if (b.stripe_checkout_session != "") &&
        (match b.checkout_session_created_at with
         | some t => decide (env.now < t + 1439 * secondsPerMinute)
         | none => false) then
      { session := some b.stripe_checkout_session, record := b,
        providerCalled := false, capturedExceptions := 0, raised := false }
    else
      match b.plan with
      | none =>
          -- AttributeError in create_checkout_session; not caught
          { session := none, record := b, providerCalled := false,
            capturedExceptions := 0, raised := true }
      | some _ =>
        match env.new_session with
        | none =>
            -- ImproperlyConfigured: capture_exception(e), no update
            { session := none, record := b, providerCalled := false,
              capturedExceptions := 1, raised := false }
        | some (cs, cust) =>
          if cs ≠ "" then
            { session := some cs,
              record := { b with stripe_checkout_session := cs,
                                 stripe_customer_id := cust,
                                 checkout_session_created_at := some env.now },
              providerCalled := true, capturedExceptions := 0, raised := false }
          else
            { session := none, record := b, providerCalled := true,
              capturedExceptions := 0, raised := false }
  else
    { session := none, record := b, providerCalled := false,
      capturedExceptions := 0, raised := false }

/-- The subscription item `report_subscription_item_usage` (stripe.py lines
145-164) reports against: iterating the subscription's items, it keeps the
first item and thereafter overwrites with any metered-usage item. -/
def pick_usage_item (items : List SubscriptionItem) : Option String :=
  items.foldl
    (fun acc item =>
      if acc.isNone || item.usage_type == "metered" then some item.id else acc)
    none

/-- `timestamp.strftime("%Y-%m-%d")` abstracted as the UTC day index: two
timestamps format to the same date string iff they lie in the same day. -/
def dayOf (t : Int) : Int := t / secondsPerDay

/-- The `idempotency_key` argument of
`stripe.SubscriptionItem.create_usage_record` (stripe.py line 162):
`f"{subscription_item_id}-{timestamp.strftime('%Y-%m-%d')}"`. -/
def usage_idempotency_key (subscription_item_id : String) (t : Int) : String :=
  subscription_item_id ++ "-" ++ toString (dayOf t)

/-- `report_subscription_item_usage` (stripe.py lines 145-164): the
idempotency key and quantity submitted to the provider; `none` when the
subscription has no items (the Python call would fail on a `None` item id). -/
def report_subscription_item_usage (sub : ProviderSubscription)
    (billed_usage : Nat) (timestamp : Int) : Option (String × Nat) :=
  match pick_usage_item sub.items with
  | none => none
  | some item_id => some (usage_idempotency_key item_id timestamp, billed_usage)

/-- `max_retries=3` on the `@app.task` decorator of
`_compute_daily_usage_for_organization` (tasks.py line 33). -/
def daily_usage_max_retries : Nat := 3

/-- Celery retry semantics of `_compute_daily_usage_for_organization`
(tasks.py lines 33-60): `attempts` lists the event-store lookups the
successive executions would see (`none` = ClickHouse unavailable, which makes
the task `self.retry()`); the run stops at the first available count, trying
at most `1 + daily_usage_max_retries` executions. -/
def run_daily_usage_task (attempts : List (Option Nat)) : Option Nat :=
  ((attempts.take (daily_usage_max_retries + 1)).filterMap id).head?

/-! Sample data used by concrete witnesses and counterexamples. -/

def meteredPlan : Plan :=
  { key := "metered", name := "Metered", price_id := "price_metered",
    event_allowance := none, is_active := true, is_metered_billing := true,
    self_serve := true }

def startupPlan : Plan :=
  { key := "startup", name := "Startup", price_id := "price_startup",
    event_allowance := none, is_active := true, is_metered_billing := false,
    self_serve := false }

def standardPlan : Plan :=
  { key := "standard", name := "Standard", price_id := "price_standard",
    event_allowance := none, is_active := true, is_metered_billing := true,
    self_serve := true }

def baseBilling : OrganizationBilling :=
  { stripe_customer_id := "cus_1", stripe_checkout_session := "",
    stripe_subscription_id := "", stripe_subscription_item_id := "",
    checkout_session_created_at := none, should_setup_billing := false,
    billing_period_ends := none, plan := none }

def baseEvent : WebhookEvent :=
  { type := "invoice.payment_succeeded", customer := some "cus_1",
    subscription := some "sub_A", lines := [], items := [],
    cancel_at := none, canceled_at := none,
    payment_intent_id := "pi_1", payment_method := "pm_1" }

def baseEnv : StripeEnv :=
  { now := 0, known_prices := ["price_metered", "price_startup", "price_standard"],
    lookup := none,
    created_subscription := { subscription_id := "sub_new", subscription_item_id := "si_new" },
    cancel_intent_ok := true, set_default_ok := true,
    standard_plan := some standardPlan }

/-! Claims -/

/-- C1: `is_billing_active` returns true iff a plan is set,
`should_setup_billing` is false, `billing_period_ends` is set and strictly in
the future; in particular a record with `should_setup_billing = false` and no
`billing_period_ends` is never active. -/
theorem billing_active_iff_plan_setup_and_future_period
    (b : OrganizationBilling) (now : Int) :
    (b.is_billing_active now = true ↔
      b.plan.isSome ∧ b.should_setup_billing = false ∧
        ∃ e, b.billing_period_ends = some e ∧ now < e) ∧
    (b.should_setup_billing = false → b.billing_period_ends = none →
      b.is_billing_active now = false) := by
  unfold OrganizationBilling.is_billing_active
  rcases b with ⟨_, _, _, _, _, ssb, bpe, plan⟩
  cases plan <;> cases bpe <;> cases ssb <;> simp

/-- Witness for C1 at a concrete record: `should_setup_billing = false` and
no `billing_period_ends` ⇒ inactive. -/
theorem billing_active_iff_plan_setup_and_future_period_witness :
    OrganizationBilling.is_billing_active
      { baseBilling with plan := some meteredPlan } 5 = false :=
  (billing_active_iff_plan_setup_and_future_period
    { baseBilling with plan := some meteredPlan } 5).2 rfl rfl

/-- C2: a `payment-succeeded` (`invoice.payment_succeeded`) webhook for an
organization whose record already has a non-empty `stripe_subscription_id`
differing from the event's subscription id is rejected with a 400 response,
a loud diagnostic is emitted, and the record is neither overwritten nor
saved. -/
theorem payment_succeeded_subscription_mismatch_rejected
    (env : StripeEnv) (e : WebhookEvent) (b : OrganizationBilling) (sub c : String)
    (hc : e.customer = some c)
    (hlookup : env.lookup = some b)
    (htype : e.type = "invoice.payment_succeeded")
    (hsub : e.subscription = some sub)
    (honfile : b.stripe_subscription_id ≠ "")
    (hdiff : b.stripe_subscription_id ≠ sub) :
    (stripe_webhook env (.ok e)).status = 400 ∧
    (stripe_webhook env (.ok e)).success = false ∧
    (stripe_webhook env (.ok e)).saved = false ∧
    (stripe_webhook env (.ok e)).record = some b ∧
    (stripe_webhook env (.ok e)).messages ≠ [] := by
  simp [stripe_webhook, hc, hlookup, htype, hsub, honfile, hdiff, plainOutcome]

/-- Witness for C2: concrete mismatching webhook (`sub_A` in the event,
`sub_B` on file) is rejected without touching the record. -/
theorem payment_succeeded_subscription_mismatch_rejected_witness :
    (stripe_webhook
        { baseEnv with lookup := some { baseBilling with stripe_subscription_id := "sub_B" } }
        (.ok baseEvent)).status = 400 ∧
    (stripe_webhook
        { baseEnv with lookup := some { baseBilling with stripe_subscription_id := "sub_B" } }
        (.ok baseEvent)).success = false ∧
    (stripe_webhook
        { baseEnv with lookup := some { baseBilling with stripe_subscription_id := "sub_B" } }
        (.ok baseEvent)).saved = false ∧
    (stripe_webhook
        { baseEnv with lookup := some { baseBilling with stripe_subscription_id := "sub_B" } }
        (.ok baseEvent)).record = some { baseBilling with stripe_subscription_id := "sub_B" } ∧
    (stripe_webhook
        { baseEnv with lookup := some { baseBilling with stripe_subscription_id := "sub_B" } }
        (.ok baseEvent)).messages ≠ [] :=
  payment_succeeded_subscription_mismatch_rejected
    { baseEnv with lookup := some { baseBilling with stripe_subscription_id := "sub_B" } }
    baseEvent { baseBilling with stripe_subscription_id := "sub_B" } "sub_A" "cus_1"
    rfl rfl rfl rfl (by decide) (by decide)

/-- C3: a webhook whose customer id matches no billing record is answered
with `200 {"success": true}` and no record is created or changed when none of
its line items references a known plan price; when some line item's price id
is a known plan price, a loud diagnostic is emitted and a 400 response forces
the provider to retry. -/
theorem unknown_customer_webhook_disposition
    (env : StripeEnv) (e : WebhookEvent) (c : String)
    (hc : e.customer = some c)
    (hlookup : env.lookup = none) :
    (e.invoiceLines.any (fun l => env.known_prices.contains l.price_id) = false →
      (stripe_webhook env (.ok e)).status = 200 ∧
      (stripe_webhook env (.ok e)).success = true ∧
      (stripe_webhook env (.ok e)).record = none ∧
      (stripe_webhook env (.ok e)).saved = false ∧
      (stripe_webhook env (.ok e)).messages = []) ∧
    (e.invoiceLines.any (fun l => env.known_prices.contains l.price_id) = true →
      (stripe_webhook env (.ok e)).status = 400 ∧
      (stripe_webhook env (.ok e)).success = false ∧
      (stripe_webhook env (.ok e)).record = none ∧
      (stripe_webhook env (.ok e)).saved = false ∧
      (stripe_webhook env (.ok e)).messages ≠ []) := by
  constructor
  · intro h
    have h' : ¬ ∃ l ∈ e.invoiceLines, l.price_id ∈ env.known_prices := by
      simpa using h
    simp [stripe_webhook, hc, hlookup, h', plainOutcome]
  · intro h
    have h' : ∃ l ∈ e.invoiceLines, l.price_id ∈ env.known_prices := by
      simpa using h
    simp [stripe_webhook, hc, hlookup, h', plainOutcome]

def c3Event : WebhookEvent :=
  { baseEvent with
    customer := some "cus_x",
    lines := [{ price_id := "price_unrelated", period_end := 100 }] }

/-- Witness for C3: a concrete payment-succeeded webhook for an unknown
customer whose only line item has an unrecognized price is ignored with 200. -/
theorem unknown_customer_webhook_disposition_witness :
    (stripe_webhook baseEnv (.ok c3Event)).status = 200 ∧
    (stripe_webhook baseEnv (.ok c3Event)).success = true ∧
    (stripe_webhook baseEnv (.ok c3Event)).record = none ∧
    (stripe_webhook baseEnv (.ok c3Event)).saved = false ∧
    (stripe_webhook baseEnv (.ok c3Event)).messages = [] :=
  (unknown_customer_webhook_disposition baseEnv c3Event
      "cus_x" rfl rfl).1 (by decide)

/-- C4: a `card-authorized` (`payment_intent.amount_capturable_updated`)
webhook for an organization awaiting setup grants exactly 365 days from now
and clears `should_setup_billing` on the "startup" plan, or — on a metered
plan — creates a provider subscription, stores its subscription and
subscription-item ids, and clears `should_setup_billing`; in both cases the
cancel-authorization and set-default-payment-method provider calls are
attempted, and since `env.cancel_intent_ok` and `env.set_default_ok` are
arbitrary here, a provider failure in either attempt still yields 200. -/
theorem card_authorized_completes_setup
    (env : StripeEnv) (e : WebhookEvent) (b : OrganizationBilling) (p : Plan) (c : String)
    (hc : e.customer = some c)
    (hlookup : env.lookup = some b)
    (htype : e.type = "payment_intent.amount_capturable_updated")
    (hplan : b.plan = some p) :
    (p.key = "startup" →
      (stripe_webhook env (.ok e)).status = 200 ∧
      (stripe_webhook env (.ok e)).record =
        some { b with billing_period_ends := some (env.now + 365 * secondsPerDay),
                      should_setup_billing := false } ∧
      (stripe_webhook env (.ok e)).saved = true ∧
      (stripe_webhook env (.ok e)).cancelAttempted = true ∧
      (stripe_webhook env (.ok e)).setDefaultAttempted = true ∧
      (stripe_webhook env (.ok e)).raised = false) ∧
    (p.key ≠ "startup" → p.is_metered_billing = true →
      (stripe_webhook env (.ok e)).status = 200 ∧
      (stripe_webhook env (.ok e)).record =
        some { b with
               stripe_subscription_item_id := env.created_subscription.subscription_item_id,
               stripe_subscription_id := env.created_subscription.subscription_id,
               should_setup_billing := false } ∧
      (stripe_webhook env (.ok e)).saved = true ∧
      (stripe_webhook env (.ok e)).cancelAttempted = true ∧
      (stripe_webhook env (.ok e)).setDefaultAttempted = true ∧
      (stripe_webhook env (.ok e)).raised = false) := by
  constructor
  · intro hkey
    simp [stripe_webhook, OrganizationBilling.handle_post_card_validation,
      hc, hlookup, htype, hplan, hkey]
  · intro hkey hmetered
    simp [stripe_webhook, OrganizationBilling.handle_post_card_validation,
      hc, hlookup, htype, hplan, hkey, hmetered]

def c4Billing : OrganizationBilling :=
  { baseBilling with plan := some meteredPlan, should_setup_billing := true }

def c4Env : StripeEnv := { baseEnv with lookup := some c4Billing }

def c4Event : WebhookEvent :=
  { baseEvent with type := "payment_intent.amount_capturable_updated" }

/-- Witness for C4: concrete metered organization awaiting setup receives a
card-authorized event and ends with the created subscription ids on file. -/
theorem card_authorized_completes_setup_witness :
    (stripe_webhook c4Env (.ok c4Event)).status = 200 ∧
    (stripe_webhook c4Env (.ok c4Event)).record =
      some { c4Billing with
             stripe_subscription_item_id := "si_new",
             stripe_subscription_id := "sub_new",
             should_setup_billing := false } ∧
    (stripe_webhook c4Env (.ok c4Event)).saved = true ∧
    (stripe_webhook c4Env (.ok c4Event)).cancelAttempted = true ∧
    (stripe_webhook c4Env (.ok c4Event)).setDefaultAttempted = true ∧
    (stripe_webhook c4Env (.ok c4Event)).raised = false :=
  (card_authorized_completes_setup c4Env c4Event c4Billing
      meteredPlan "cus_1" rfl rfl rfl rfl).2 (by decide) rfl

def c5Billing : OrganizationBilling :=
  { baseBilling with
    plan := some standardPlan,
    should_setup_billing := true,
    stripe_checkout_session := "cs_A",
    checkout_session_created_at := some 0 }

/-- C5 counterexample: a billing-status request 1439 minutes (86340 s) after
session creation — strictly less than 24 hours (86400 s) — does NOT return
the stored session `cs_A`: the stored session is considered expired and a
fresh provider session `cs_B` is created. -/
theorem checkout_reuse_within_24h_counterexample :
    (86340 : Int) - 0 < 24 * 60 * 60 ∧
    c5Billing.checkout_session_created_at = some 0 ∧
    (get_subscription_url c5Billing
        { now := 86340, new_session := some ("cs_B", "cus_1") }).session = some "cs_B" ∧
    (get_subscription_url c5Billing
        { now := 86340, new_session := some ("cs_B", "cus_1") }).providerCalled = true ∧
    some "cs_B" ≠ some c5Billing.stripe_checkout_session := by decide

/-- C5 amended: the reuse window is 1439 minutes, not 24 hours. For an
organization awaiting setup with an existing checkout session, a request
strictly less than 1439 minutes after `checkout_session_created_at` returns
the stored session id with no provider call and no record change; a request
at 1439 minutes or later creates a fresh session with a new
`checkout_session_created_at`. -/
theorem checkout_session_reuse_window
    (b : OrganizationBilling) (env : CheckoutEnv) (t : Int)
    (hsetup : b.should_setup_billing = true)
    (hactive : b.is_billing_active env.now = false)
    (hsession : b.stripe_checkout_session ≠ "")
    (hcreated : b.checkout_session_created_at = some t) :
    (env.now < t + 1439 * secondsPerMinute →
      (get_subscription_url b env).session = some b.stripe_checkout_session ∧
      (get_subscription_url b env).providerCalled = false ∧
      (get_subscription_url b env).record = b) ∧
    (∀ p cs cust, t + 1439 * secondsPerMinute ≤ env.now →
      b.plan = some p → env.new_session = some (cs, cust) → cs ≠ "" →
      (get_subscription_url b env).session = some cs ∧
      (get_subscription_url b env).providerCalled = true ∧
      (get_subscription_url b env).record.checkout_session_created_at = some env.now) := by
  constructor
  · intro hlt
    simp [get_subscription_url, hsetup, hactive, hsession, hcreated, hlt]
  · intro p cs cust hge hplan hnew hcs
    have hnotlt : ¬ env.now < t + 1439 * secondsPerMinute := not_lt.mpr hge
    simp [get_subscription_url, hsetup, hactive, hsession, hcreated, hnotlt,
      hplan, hnew, hcs]

/-- Witness for the amended C5 at concrete inputs: reuse 60 s after
creation. -/
theorem checkout_session_reuse_window_witness :
    (get_subscription_url c5Billing
        { now := 60, new_session := some ("cs_B", "cus_1") }).session =
      some c5Billing.stripe_checkout_session ∧
    (get_subscription_url c5Billing
        { now := 60, new_session := some ("cs_B", "cus_1") }).providerCalled = false ∧
    (get_subscription_url c5Billing
        { now := 60, new_session := some ("cs_B", "cus_1") }).record = c5Billing :=
  (checkout_session_reuse_window c5Billing
      { now := 60, new_session := some ("cs_B", "cus_1") } 0
      rfl (by decide) (by decide) rfl).1 (by decide)

def c6Event : WebhookEvent :=
  { baseEvent with
    subscription := some "sub_S",
    lines := [{ price_id := "price_metered", period_end := 100 },
              { price_id := "price_metered", period_end := 150 }] }

def c6Saved : OrganizationBilling :=
  { c4Billing with stripe_subscription_id := "sub_S", should_setup_billing := false }

def c6ProviderSub : ProviderSubscription :=
  { status := "active", current_period_end := 200, items := [] }

/-- C6 counterexample: a payment-succeeded event with two line items (first
period end 100) for a known organization. The webhook handler records no
warning, sets no period end itself, and the scheduled
`update_subscription_billing_period` task sets the period end from the
provider's subscription object (200), not from the event's first line item
(100). -/
theorem payment_succeeded_line_item_period_counterexample :
    c6Event.lines.length = 2 ∧
    (c6Event.lines.map LineItem.period_end).head? = some 100 ∧
    (stripe_webhook c4Env (.ok c6Event)).messages = [] ∧
    (stripe_webhook c4Env (.ok c6Event)).record = some c6Saved ∧
    (stripe_webhook c4Env (.ok c6Event)).scheduledBillingUpdate = true ∧
    c6Saved.billing_period_ends = none ∧
    update_subscription_billing_period c6Saved c6ProviderSub =
      .done { c6Saved with billing_period_ends := some 200 } true ∧
    (some (200 : Int) ≠ some (100 : Int)) := by decide

/-- C6 amended: for a known organization, a payment-succeeded webhook whose
subscription id is not in conflict — no id on file yet (first payment) or a
matching id on file (renewal) — records the subscription id, clears
`should_setup_billing`, saves, records no warning regardless of the number of
line items, and schedules `update_subscription_billing_period`, which sets
`billing_period_ends` from the provider subscription's `current_period_end`
(not from the event's line items) when the subscription is active and retries
while it is not. -/
theorem payment_succeeded_period_from_provider
    (env : StripeEnv) (e : WebhookEvent) (b : OrganizationBilling)
    (sub c : String)
    (hc : e.customer = some c)
    (hlookup : env.lookup = some b)
    (htype : e.type = "invoice.payment_succeeded")
    (hsub : e.subscription = some sub)
    (hnoconflict : b.stripe_subscription_id = "" ∨ b.stripe_subscription_id = sub)
    (hsubne : sub ≠ "") :
    (stripe_webhook env (.ok e)).status = 200 ∧
    (stripe_webhook env (.ok e)).record =
      some { b with stripe_subscription_id := sub, should_setup_billing := false } ∧
    (stripe_webhook env (.ok e)).saved = true ∧
    (stripe_webhook env (.ok e)).messages = [] ∧
    (stripe_webhook env (.ok e)).scheduledBillingUpdate = true ∧
    (∀ ps : ProviderSubscription, ps.status = "active" →
      update_subscription_billing_period
          { b with stripe_subscription_id := sub, should_setup_billing := false } ps =
        .done { b with stripe_subscription_id := sub, should_setup_billing := false,
                       billing_period_ends := some ps.current_period_end }
          b.billing_period_ends.isNone) ∧
    (∀ ps : ProviderSubscription, ps.status ≠ "active" →
      update_subscription_billing_period
          { b with stripe_subscription_id := sub, should_setup_billing := false } ps =
        .retry) := by
  have htask :
      (∀ ps : ProviderSubscription, ps.status = "active" →
        update_subscription_billing_period
            { b with stripe_subscription_id := sub, should_setup_billing := false } ps =
          .done { b with stripe_subscription_id := sub, should_setup_billing := false,
                         billing_period_ends := some ps.current_period_end }
            b.billing_period_ends.isNone) ∧
      (∀ ps : ProviderSubscription, ps.status ≠ "active" →
        update_subscription_billing_period
            { b with stripe_subscription_id := sub, should_setup_billing := false } ps =
          .retry) := by
    constructor <;> intro ps hps <;>
      simp [update_subscription_billing_period, hsubne, hps]
  rcases hnoconflict with hnofile | hmatch
  · refine ⟨?_, ?_, ?_, ?_, ?_, htask.1, htask.2⟩ <;>
      simp [stripe_webhook, hc, hlookup, htype, hsub, hnofile]
  · refine ⟨?_, ?_, ?_, ?_, ?_, htask.1, htask.2⟩ <;>
      simp [stripe_webhook, hc, hlookup, htype, hsub, hmatch, hsubne]

/-- Witness for the amended C6 at concrete inputs, exercising both task
outcomes (active provider subscription ⇒ period end 200; non-active ⇒
retry). -/
theorem payment_succeeded_period_from_provider_witness :
    (stripe_webhook c4Env (.ok c6Event)).status = 200 ∧
    (stripe_webhook c4Env (.ok c6Event)).record = some c6Saved ∧
    (stripe_webhook c4Env (.ok c6Event)).saved = true ∧
    (stripe_webhook c4Env (.ok c6Event)).messages = [] ∧
    (stripe_webhook c4Env (.ok c6Event)).scheduledBillingUpdate = true ∧
    update_subscription_billing_period c6Saved c6ProviderSub =
      .done { c6Saved with billing_period_ends := some c6ProviderSub.current_period_end }
        c4Billing.billing_period_ends.isNone ∧
    update_subscription_billing_period c6Saved
        { c6ProviderSub with status := "past_due" } = .retry :=
  have h := payment_succeeded_period_from_provider c4Env c6Event c4Billing
    "sub_S" "cus_1" rfl rfl rfl rfl (Or.inl rfl) (by decide)
  ⟨h.1, h.2.1, h.2.2.1, h.2.2.2.1, h.2.2.2.2.1,
    h.2.2.2.2.2.1 c6ProviderSub rfl,
    h.2.2.2.2.2.2 { c6ProviderSub with status := "past_due" } (by decide)⟩

def c7Billing : OrganizationBilling :=
  { baseBilling with
    plan := some startupPlan,
    stripe_subscription_id := "sub_A",
    billing_period_ends := some 1000000 }

def c7Event : WebhookEvent :=
  { baseEvent with
    type := "customer.subscription.deleted",
    cancel_at := some 100,
    canceled_at := some 200 }

def c7Env : StripeEnv := { baseEnv with lookup := some c7Billing }

/-- C7 counterexample: a subscription-cancelled webhook for a known
organization on the startup plan whose `cancel_at` (100) is set but differs
from `canceled_at` (200) — hence not the scheduled-end special path — leaves
the record unchanged and still active: no transition to Expired happens. -/
theorem subscription_cancelled_silent_noop_counterexample :
    c7Event.cancel_at ≠ c7Event.canceled_at ∧
    (stripe_webhook c7Env (.ok c7Event)).status = 200 ∧
    (stripe_webhook c7Env (.ok c7Event)).saved = false ∧
    (stripe_webhook c7Env (.ok c7Event)).record = some c7Billing ∧
    c7Billing.is_billing_active 500 = true := by decide

/-- C7 amended (with `register_cancellation` modelled from the spec): for a
known organization whose plan is not "startup" or whose `cancel_at` is
null/zero, a subscription-cancelled webhook with cancellation timestamp `ts`
records `ts` as `billing_period_ends` (so billing is inactive from `ts` on)
and completes without raising; organizations on the startup plan with a
non-null `cancel_at` differing from `canceled_at` are left untouched (no
expiry). -/
theorem subscription_cancelled_expires_record
    (env : StripeEnv) (e : WebhookEvent) (b : OrganizationBilling) (p : Plan)
    (ts : Int) (c : String)
    (hc : e.customer = some c)
    (hlookup : env.lookup = some b)
    (htype : e.type = "customer.subscription.deleted")
    (hplan : b.plan = some p)
    (hnotspecial : ¬(p.key = "startup" ∧ truthyTimestamp e.cancel_at = true))
    (hcanceled : e.canceled_at = some ts) :
    (stripe_webhook env (.ok e)).status = 200 ∧
    (stripe_webhook env (.ok e)).raised = false ∧
    (stripe_webhook env (.ok e)).saved = true ∧
    (stripe_webhook env (.ok e)).record = some (b.register_cancellation ts) ∧
    (b.register_cancellation ts).billing_period_ends = some ts ∧
    (∀ now, ts ≤ now → (b.register_cancellation ts).is_billing_active now = false) := by
  refine ⟨?_, ?_, ?_, ?_, ?_, ?_⟩
  case _ =>
    simp [stripe_webhook, hc, hlookup, htype, hplan, hnotspecial, hcanceled]
  case _ =>
    simp [stripe_webhook, hc, hlookup, htype, hplan, hnotspecial, hcanceled]
  case _ =>
    simp [stripe_webhook, hc, hlookup, htype, hplan, hnotspecial, hcanceled]
  case _ =>
    simp [stripe_webhook, hc, hlookup, htype, hplan, hnotspecial, hcanceled]
  case _ => simp [OrganizationBilling.register_cancellation]
  case _ =>
    intro now hnow
    simp [OrganizationBilling.register_cancellation,
      OrganizationBilling.is_billing_active, not_lt.mpr hnow]

def c7aBilling : OrganizationBilling :=
  { baseBilling with
    plan := some meteredPlan,
    stripe_subscription_id := "sub_A",
    billing_period_ends := some 1000 }

def c7aEvent : WebhookEvent :=
  { baseEvent with
    type := "customer.subscription.deleted",
    cancel_at := none,
    canceled_at := some 555 }

def c7aEnv : StripeEnv := { baseEnv with lookup := some c7aBilling }

/-- Witness for the amended C7: a concrete metered (non-startup) organization
is expired at the cancellation timestamp 555. -/
theorem subscription_cancelled_expires_record_witness :
    (stripe_webhook c7aEnv (.ok c7aEvent)).status = 200 ∧
    (stripe_webhook c7aEnv (.ok c7aEvent)).raised = false ∧
    (stripe_webhook c7aEnv (.ok c7aEvent)).record =
      some (c7aBilling.register_cancellation 555) ∧
    (c7aBilling.register_cancellation 555).is_billing_active 600 = false :=
  have h := subscription_cancelled_expires_record c7aEnv c7aEvent c7aBilling
    meteredPlan 555 "cus_1" rfl rfl rfl rfl (by decide) rfl
  ⟨h.1, h.2.1, h.2.2.2.1, h.2.2.2.2.2 600 (by decide)⟩

/-- C8: the usage report for a day is submitted under the idempotency key
`{subscriptionItemId}-{date}`; two invocations for the same organization
(same provider subscription) and the same day produce the identical key, so
the provider's idempotency layer counts the usage once; and a failed
event-count lookup is retried — the task reads at most
`1 + daily_usage_max_retries` lookups (`max_retries=3`) and succeeds as soon
as one of them is available instead of failing permanently. -/
theorem daily_usage_idempotent_key_and_bounded_retry
    (sub : ProviderSubscription) (usage : Nat) (t t' : Int) (item_id : String)
    (hpick : pick_usage_item sub.items = some item_id)
    (hday : dayOf t = dayOf t') :
    report_subscription_item_usage sub usage t =
      some (item_id ++ "-" ++ toString (dayOf t), usage) ∧
    (report_subscription_item_usage sub usage t).map Prod.fst =
      (report_subscription_item_usage sub usage t').map Prod.fst ∧
    daily_usage_max_retries = 3 ∧
    (∀ attempts : List (Option Nat),
      run_daily_usage_task attempts =
        run_daily_usage_task (attempts.take (daily_usage_max_retries + 1))) ∧
    (∀ (n : Nat) (rest : List (Option Nat)),
      run_daily_usage_task (none :: some n :: rest) = some n) := by
  refine ⟨?_, ?_, rfl, ?_, ?_⟩
  · simp [report_subscription_item_usage, hpick, usage_idempotency_key]
  · simp [report_subscription_item_usage, hpick, usage_idempotency_key, hday]
  · intro attempts
    simp [run_daily_usage_task, List.take_take]
  · intro n rest
    simp [run_daily_usage_task, daily_usage_max_retries]

def usageSub : ProviderSubscription :=
  { status := "active", current_period_end := 0,
    items := [{ id := "si_X", usage_type := "metered" }] }

/-- Witness for C8: 14 events reported for day index 1 under key `si_X-1`,
with the same key for two timestamps within that day. -/
theorem daily_usage_idempotent_key_and_bounded_retry_witness :
    report_subscription_item_usage usageSub 14 86400 =
      some ("si_X" ++ "-" ++ toString (dayOf 86400), 14) ∧
    (report_subscription_item_usage usageSub 14 86400).map Prod.fst =
      (report_subscription_item_usage usageSub 14 90000).map Prod.fst ∧
    daily_usage_max_retries = 3 ∧
    (∀ attempts : List (Option Nat),
      run_daily_usage_task attempts =
        run_daily_usage_task (attempts.take (daily_usage_max_retries + 1))) ∧
    (∀ (n : Nat) (rest : List (Option Nat)),
      run_daily_usage_task (none :: some n :: rest) = some n) :=
  daily_usage_idempotent_key_and_bounded_retry usageSub 14 86400 90000 "si_X"
    (by decide) (by decide)

/-- C9: with the webhook signing secret unconfigured, `parse_webhook` raises
the configuration error before any signature check — a distinct failure from
a bad signature — and the webhook view surfaces it through
`capture_exception` (count 1) while processing nothing. -/
theorem unconfigured_webhook_secret_raises_config_error
    (sig_valid payload_valid : Bool) (e : WebhookEvent) (env : StripeEnv) :
    parse_webhook false sig_valid payload_valid e =
      .error .configurationError ∧
    (StripeParseFailure.configurationError ≠ StripeParseFailure.signatureError) ∧
    (stripe_webhook env (.error .configurationError)).capturedExceptions = 1 ∧
    (stripe_webhook env (.error .configurationError)).status = 400 ∧
    (stripe_webhook env (.error .configurationError)).saved = false := by
  refine ⟨rfl, by decide, ?_, ?_, ?_⟩ <;> simp [stripe_webhook, plainOutcome]

/-- C10: a subscription-cancelled webhook for a startup-plan organization
with `cancel_at = canceled_at` (both set) does not expire billing: the
organization is moved to the "standard" plan and the post-card-validation
routine runs again, creating a provider subscription (the standard plan being
metered), storing its ids, and clearing `should_setup_billing`, with
`billing_period_ends` untouched. -/
theorem startup_scheduled_end_moves_to_standard_plan
    (env : StripeEnv) (e : WebhookEvent) (b : OrganizationBilling)
    (p std : Plan) (t : Int) (c : String)
    (hc : e.customer = some c)
    (hlookup : env.lookup = some b)
    (htype : e.type = "customer.subscription.deleted")
    (hplan : b.plan = some p)
    (hkey : p.key = "startup")
    (hcancel : e.cancel_at = some t)
    (ht : t ≠ 0)
    (hcanceled : e.canceled_at = some t)
    (hstd : env.standard_plan = some std)
    (hstdkey : std.key = "standard")
    (hmetered : std.is_metered_billing = true) :
    (stripe_webhook env (.ok e)).status = 200 ∧
    (stripe_webhook env (.ok e)).saved = true ∧
    (stripe_webhook env (.ok e)).record =
      some { b with
             plan := some std,
             stripe_subscription_item_id := env.created_subscription.subscription_item_id,
             stripe_subscription_id := env.created_subscription.subscription_id,
             should_setup_billing := false } ∧
    ((stripe_webhook env (.ok e)).record.map OrganizationBilling.billing_period_ends) =
      some b.billing_period_ends := by
  have hstdkey' : ¬ std.key = "startup" := by rw [hstdkey]; decide
  refine ⟨?_, ?_, ?_, ?_⟩ <;>
    simp [stripe_webhook, hc, hlookup, htype, hplan, hkey, hcancel, hcanceled,
      truthyTimestamp, ht, hstd,
      OrganizationBilling.handle_post_card_validation, hstdkey', hmetered]

def c10Billing : OrganizationBilling :=
  { baseBilling with
    plan := some startupPlan,
    stripe_subscription_id := "sub_A",
    billing_period_ends := some 777 }

def c10Event : WebhookEvent :=
  { baseEvent with
    type := "customer.subscription.deleted",
    cancel_at := some 100,
    canceled_at := some 100 }

def c10Env : StripeEnv := { baseEnv with lookup := some c10Billing }

/-- Witness for C10 at concrete inputs: the startup organization ends up on
the standard plan with a fresh subscription and its period end untouched. -/
theorem startup_scheduled_end_moves_to_standard_plan_witness :
    (stripe_webhook c10Env (.ok c10Event)).status = 200 ∧
    (stripe_webhook c10Env (.ok c10Event)).saved = true ∧
    (stripe_webhook c10Env (.ok c10Event)).record =
      some { c10Billing with
             plan := some standardPlan,
             stripe_subscription_item_id := "si_new",
             stripe_subscription_id := "sub_new",
             should_setup_billing := false } ∧
    ((stripe_webhook c10Env (.ok c10Event)).record.map
        OrganizationBilling.billing_period_ends) =
      some c10Billing.billing_period_ends :=
  startup_scheduled_end_moves_to_standard_plan c10Env c10Event c10Billing
    startupPlan standardPlan 100 "cus_1"
    rfl rfl rfl rfl rfl rfl (by decide) rfl rfl rfl rfl

end MultiTenancy
